import Mathlib

/-!
Verification of the LXArtNet protocol engine (`src/examples/ArtNetDMX/LXArtNetEthernet2.h`).

The repository ships only the class header: constants, declarations, doc
comments, and the single inline method body `dmxPort`.  The definitions
below embed those constants and that body directly; every method whose
body is absent from the repository is modelled from the specification
(its doc comment starts with `Modelled from the spec:`).

Conventions of the embedding:
- bytes and addresses are `Nat`; wraparound is written with explicit `% 256`;
- the slot buffer (`SlotBuffer` of the spec) is a `List Nat`; a decode
  overwrites a prefix and leaves the stale tail in place, as the spec's
  no-zero-fill quirk requires;
- `MergeLock` is an `Option Nat`: `none` is unlocked, `some a` is locked
  to source address `a`;
- an incoming datagram is a `List Nat` of bytes together with the sender
  address supplied out-of-band by the transport.
-/

/-- UDP port used by the protocol (`#define ARTNET_PORT 0x1936`). -/
def ARTNET_PORT : Nat := 0x1936

/-- Capacity of the raw datagram buffer (`#define ARTNET_BUFFER_MAX 530`). -/
def ARTNET_BUFFER_MAX : Nat := 530

/-- Size of an ArtPollReply datagram (`#define ARTNET_REPLY_SIZE 239`). -/
def ARTNET_REPLY_SIZE : Nat := 239

/-- Opcode of an ArtPoll datagram (`#define ARTNET_ART_POLL 0x2000`). -/
def ARTNET_ART_POLL : Nat := 0x2000

/-- Opcode of an ArtPollReply datagram (`#define ARTNET_ART_POLL_REPLY 0x2100`). -/
def ARTNET_ART_POLL_REPLY : Nat := 0x2100

/-- Opcode of an ArtDMX data datagram (`#define ARTNET_ART_DMX 0x5000`). -/
def ARTNET_ART_DMX : Nat := 0x5000

/-- Opcode of an ArtAddress datagram (`#define ARTNET_ART_ADDRESS 0x6000`). -/
def ARTNET_ART_ADDRESS : Nat := 0x6000

/-- The no-operation return code (`#define ARTNET_NOP 0`). -/
def ARTNET_NOP : Nat := 0

/-- State of one `LXArtNet` engine instance, with the fields the header
declares: the slot count `_dmx_slots`, the combined subnet/universe byte
`_universe`, the outgoing sequence counter `_sequence`, the node address
`_my_address`, the optional broadcast address `_broadcast_address`
(present only when the constructor received a subnet mask), and the merge
lock `_dmx_sender` (first sender of an ArtDMX packet, `none` when
unlocked).  The spec's SlotBuffer is the field `dmx`. -/
structure LXArtNet where
  dmx : List Nat
  _dmx_slots : Nat
  _universe : Nat
  _sequence : Nat
  _my_address : Nat
  _broadcast_address : Option Nat
  _dmx_sender : Option Nat
  deriving Repr, DecidableEq

/-- Modelled from the spec: the constructor body is absent from the
repository.  `LXArtNet(IPAddress address)` — node address only, no
broadcast address, merge lock created unlocked, sequence counter at its
initial value 0, slot buffer of 512 slots. -/
def LXArtNet.mkUnicast (address : Nat) : LXArtNet :=
  { dmx := List.replicate 512 0
    _dmx_slots := 512
    _universe := 0
    _sequence := 0
    _my_address := address
    _broadcast_address := none
    _dmx_sender := none }

/-- Modelled from the spec: the broadcast-address computation belongs to
the transport collaborator; the usual IPv4 rule (network bits of the
address, host bits all ones) stands in for it. -/
def broadcastFor (address subnet_mask : Nat) : Nat :=
  Nat.lor (Nat.land address subnet_mask) (Nat.xor subnet_mask 0xffffffff)

/-- Modelled from the spec: the constructor body is absent from the
repository.  `LXArtNet(IPAddress address, IPAddress subnet_mask)` —
additionally computes and stores the broadcast address for poll
replies. -/
def LXArtNet.mkBroadcast (address subnet_mask : Nat) : LXArtNet :=
  { LXArtNet.mkUnicast address with
    _broadcast_address := some (broadcastFor address subnet_mask) }

/-- `uint16_t dmxPort(void) { return ARTNET_PORT; }` — the one method body
present in the header, embedded verbatim. -/
def LXArtNet.dmxPort (_ : LXArtNet) : Nat := ARTNET_PORT

/-- Modelled from the spec: body absent.  `setUniverse(u)` replaces the
universe (low) nibble and keeps the subnet nibble. -/
def LXArtNet.setUniverse (st : LXArtNet) (u : Nat) : LXArtNet :=
  { st with _universe := st._universe / 16 % 16 * 16 + u % 16 }

/-- Modelled from the spec: body absent.  `setSubnetUniverse(s, u)`
replaces both nibbles independently: high nibble subnet, low nibble
universe. -/
def LXArtNet.setSubnetUniverse (st : LXArtNet) (s u : Nat) : LXArtNet :=
  { st with _universe := s % 16 * 16 + u % 16 }

/-- Modelled from the spec: body absent.  `setUniverseAddress(u)`: 0x7f
is no change; otherwise if the high bit is set, the low nibble of `u`
becomes the universe nibble (subnet unchanged); any other value is
ignored.  (The header's doc comment states the same rule.) -/
def LXArtNet.setUniverseAddress (st : LXArtNet) (u : Nat) : LXArtNet :=
  if u = 0x7f then st
  else if u.testBit 7 then
    { st with _universe := st._universe / 16 % 16 * 16 + u % 16 }
  else st

/-- Modelled from the spec: body absent.  `setSubnetAddress(s)`: the
symmetric rule for the subnet nibble. -/
def LXArtNet.setSubnetAddress (st : LXArtNet) (s : Nat) : LXArtNet :=
  if s = 0x7f then st
  else if s.testBit 7 then
    { st with _universe := s % 16 * 16 + st._universe % 16 }
  else st

/-- `numberOfSlots` accessor. -/
def LXArtNet.numberOfSlots (st : LXArtNet) : Nat := st._dmx_slots

/-- Modelled from the spec: body absent.  `setNumberOfSlots(int n)`
accepts 1 to 512 and rejects values outside that range without modifying
state.  The argument is `Int`, as the header declares `int n`. -/
def LXArtNet.setNumberOfSlots (st : LXArtNet) (n : Int) : LXArtNet :=
  if 1 ≤ n ∧ n ≤ 512 then { st with _dmx_slots := n.toNat } else st

/-- Modelled from the spec: body absent.  `getSlot(slot)` reads the
1-based slot; an out-of-range index returns 0. -/
def LXArtNet.getSlot (st : LXArtNet) (slot : Int) : Nat :=
  if 1 ≤ slot ∧ slot ≤ 512 then st.dmx.getD (slot - 1).toNat 0 else 0

/-- Modelled from the spec: body absent.  `setSlot(slot, value)` writes
the 1-based slot; an out-of-range index is a no-op. -/
def LXArtNet.setSlot (st : LXArtNet) (slot : Int) (value : Nat) : LXArtNet :=
  if 1 ≤ slot ∧ slot ≤ 512 then
    { st with dmx := st.dmx.set (slot - 1).toNat value }
  else st

/-- The fixed 8-byte magic signature at offset 0 of every datagram:
ASCII "Art-Net" with byte 7 = 0x00. -/
def artnetMagic : List Nat := [0x41, 0x72, 0x74, 0x2D, 0x4E, 0x65, 0x74, 0x00]

/-- Modelled from the spec: body absent.  `parse_header` checks that the
datagram is at least 10 bytes long and begins with the magic signature;
if so it returns the 2-byte little-endian opcode at offset 8, otherwise
`ARTNET_NOP`. -/
def parse_header (buf : List Nat) : Nat :=
  if 10 ≤ buf.length ∧ buf.take 8 = artnetMagic then
    buf.getD 8 0 + 256 * buf.getD 9 0
  else ARTNET_NOP

/-- The declared payload length of a DATA datagram: the 2-byte big-endian
field at offsets 16–17, clamped to the 512-slot capacity. -/
def slotsOf (buf : List Nat) : Nat :=
  min (256 * buf.getD 16 0 + buf.getD 17 0) 512

/-- The payload bytes of a DATA datagram: the declared number of bytes
starting at offset 18. -/
def payloadOf (buf : List Nat) : List Nat :=
  (buf.drop 18).take (slotsOf buf)

/-- Overwrite the leading slots of the slot buffer with a payload; bytes
beyond the payload stay as they were (the spec's stale-tail quirk). -/
def writeSlots (old payload : List Nat) : List Nat :=
  payload ++ old.drop payload.length

/-- Modelled from the spec: body absent.  The ArtDMX branch of
`readArtNetPacket` (§4.2 of the spec).  The universe-address byte at
offset 14 must match the node's configured universe, otherwise the
payload is discarded with no state change (the DATA opcode is still the
return value, per the error-handling taxonomy and the design note that
wrong-universe datagrams use the same return code as accepted ones).
On a universe match the single-sender merge policy applies: accept when
unlocked (locking to the sender) or when the sender holds the lock;
discard, state unchanged, when another sender holds the lock. -/
def handleArtDMX (st : LXArtNet) (buf : List Nat) (sender : Nat) :
    LXArtNet × Nat :=
  if buf.getD 14 0 = st._universe then
    match st._dmx_sender with
    | none =>
        ({ st with dmx := writeSlots st.dmx (payloadOf buf)
                   _dmx_slots := slotsOf buf
                   _dmx_sender := some sender }, ARTNET_ART_DMX)
    | some a =>
        if sender = a then
          ({ st with dmx := writeSlots st.dmx (payloadOf buf)
                     _dmx_slots := slotsOf buf }, ARTNET_ART_DMX)
        else (st, ARTNET_ART_DMX)
  else (st, ARTNET_ART_DMX)

/-- Modelled from the spec: body absent.  `parse_art_address` (§4.3 of
the spec): an ArtAddress datagram carries name fields (stored only for
discovery replies, no engine-state impact), a universe field and a
subnet field fed to the sentinel/apply-bit setters, and a command byte;
command 0x01 ("cancel merge") resets the merge lock to unlocked, every
other command value has no further state impact.  The spec leaves the
field offsets open; following the ArtAddress wire layout the universe
field is byte 100, the subnet field byte 104 and the command byte 106. -/
def parse_art_address (st : LXArtNet) (buf : List Nat) : LXArtNet × Nat :=
  let st1 := (st.setUniverseAddress (buf.getD 100 0)).setSubnetAddress
      (buf.getD 104 0)
  if buf.getD 106 0 = 0x01 then
    ({ st1 with _dmx_sender := none }, ARTNET_ART_ADDRESS)
  else (st1, ARTNET_ART_ADDRESS)

/-- Modelled from the spec: body absent.  `readArtNetPacket` validates
the header, then dispatches on the opcode: ArtDMX datagrams go through
the merge-lockout data decode, ArtAddress datagrams through the
configuration decode, and every other opcode (ArtPoll, ArtPollReply,
unrecognized, or no valid header) causes no state change.  The return
value is the opcode reported to the caller.  `buf` is the received
datagram and `sender` its source address, supplied by the transport. -/
def readArtNetPacket (st : LXArtNet) (buf : List Nat) (sender : Nat) :
    LXArtNet × Nat :=
  let opcode := parse_header buf
  if opcode = ARTNET_ART_DMX then handleArtDMX st buf sender
  else if opcode = ARTNET_ART_ADDRESS then parse_art_address st buf
  else (st, opcode)

/-- Modelled from the spec: body absent.  `sendDMX` builds an ArtDMX
datagram from the current state (§4.4 of the spec): magic, opcode 0x5000
little-endian, protocol version 14 big-endian, the current sequence
counter, physical port 0, the universe-address byte, reserved high byte
0, the big-endian slot count, then the active slots; afterwards the
sequence counter is incremented with wraparound at 256.  The result is
the new state and the encoded datagram handed to the transport. -/
def sendDMX (st : LXArtNet) : LXArtNet × List Nat :=
  let buf := artnetMagic ++ [0x00, 0x50, 0x00, 14,
    st._sequence, 0, st._universe, 0,
    st._dmx_slots / 256, st._dmx_slots % 256] ++ st.dmx.take st._dmx_slots
  ({ st with _sequence := (st._sequence + 1) % 256 }, buf)

/-- Modelled from the spec: body absent.  The destination selection of
`send_art_poll_reply`: the stored broadcast address when the engine was
constructed with a subnet mask, otherwise the address of the poll's
sender. -/
def pollReplyDestination (st : LXArtNet) (pollSender : Nat) : Nat :=
  match st._broadcast_address with
  | some b => b
  | none => pollSender

/-- A concrete engine state used by the witnesses: universe byte 0x34
(subnet 3, universe 4), three active slots, merge lock open. -/
def sampleState : LXArtNet :=
  { dmx := [10, 20, 30]
    _dmx_slots := 3
    _universe := 0x34
    _sequence := 5
    _my_address := 0x0A000001
    _broadcast_address := none
    _dmx_sender := none }

/-- A concrete well-formed ArtDMX datagram for a given universe byte and
payload, laid out as `sendDMX` lays out outgoing datagrams. -/
def dataDatagram (uni : Nat) (payload : List Nat) : List Nat :=
  artnetMagic ++ [0x00, 0x50, 0x00, 14, 0, 0, uni, 0,
    payload.length / 256, payload.length % 256] ++ payload

/-- C10: `dmxPort` returns the constant 0x1936 (the Art-Net UDP port) in
every engine state; since it depends on no field, no operation ever
changes its value. -/
theorem dmxPort_is_artnet_port (st : LXArtNet) : st.dmxPort = 0x1936 := rfl

/-- C4: a datagram shorter than the 10-byte header, or one lacking the
8-byte magic signature at offset 0, decodes to the NOP opcode 0 and the
engine state — slot buffer, merge lock, universe address — is returned
unchanged. -/
theorem malformed_datagram_is_nop (st : LXArtNet) (buf : List Nat)
    (sender : Nat) (h : buf.length < 10 ∨ buf.take 8 ≠ artnetMagic) :
    readArtNetPacket st buf sender = (st, ARTNET_NOP) := by
  have hph : parse_header buf = ARTNET_NOP := by
    unfold parse_header
    rw [if_neg]
    rintro ⟨h1, h2⟩
    rcases h with h | h
    · omega
    · exact h h2
  unfold readArtNetPacket
  rw [hph]
  norm_num [ARTNET_NOP, ARTNET_ART_DMX, ARTNET_ART_ADDRESS]

/-- Instance of `malformed_datagram_is_nop` on a concrete 12-byte
datagram whose first bytes are not the magic signature. -/
theorem malformed_datagram_is_nop_witness :
    (([1, 2, 3, 4, 5, 6, 7, 8, 9, 10, 11, 12] : List Nat).length < 10 ∨
      ([1, 2, 3, 4, 5, 6, 7, 8, 9, 10, 11, 12] : List Nat).take 8 ≠ artnetMagic) ∧
    readArtNetPacket sampleState [1, 2, 3, 4, 5, 6, 7, 8, 9, 10, 11, 12] 77
      = (sampleState, ARTNET_NOP) :=
  ⟨Or.inr (by decide),
   malformed_datagram_is_nop sampleState _ 77 (Or.inr (by decide))⟩

/-- C7: `setUniverseAddress 0x7f` changes nothing; when the argument has
bit 0x80 set, the universe (low) nibble becomes `u % 16` (= `u & 0x0f`),
the subnet (high) nibble is kept, and no other field changes; any other
argument changes nothing. -/
theorem setUniverseAddress_spec (st : LXArtNet) (u : Nat) :
    st.setUniverseAddress 0x7f = st ∧
    (u.testBit 7 = true →
      (st.setUniverseAddress u)._universe % 16 = u % 16 ∧
      (st.setUniverseAddress u)._universe / 16 % 16 = st._universe / 16 % 16 ∧
      st.setUniverseAddress u
        = { st with _universe := (st.setUniverseAddress u)._universe }) ∧
    (u ≠ 0x7f → u.testBit 7 = false → st.setUniverseAddress u = st) := by
  refine ⟨?_, ?_, ?_⟩
  · unfold LXArtNet.setUniverseAddress
    rw [if_pos rfl]
  · intro hbit
    have hne : u ≠ 0x7f := by
      intro h
      rw [h] at hbit
      exact absurd hbit (by decide)
    unfold LXArtNet.setUniverseAddress
    rw [if_neg hne, if_pos hbit]
    refine ⟨?_, ?_, rfl⟩ <;>
      · dsimp only
        omega
  · intro hne hbit
    unfold LXArtNet.setUniverseAddress
    rw [if_neg hne, hbit]
    simp

/-- Instance of `setUniverseAddress_spec` at the spec's example 0x85:
the universe nibble becomes 5, the subnet nibble 3 is kept. -/
theorem setUniverseAddress_spec_witness :
    sampleState.setUniverseAddress 0x7f = sampleState ∧
    Nat.testBit 0x85 7 = true ∧
    (sampleState.setUniverseAddress 0x85)._universe % 16 = 5 ∧
    (sampleState.setUniverseAddress 0x85)._universe / 16 % 16 = 3 := by
  have h := setUniverseAddress_spec sampleState 0x85
  have hb : Nat.testBit 0x85 7 = true := by decide
  obtain ⟨hlow, hhigh, -⟩ := h.2.1 hb
  exact ⟨h.1, hb, by rw [hlow], by
    rw [hhigh]
    decide⟩

/-- C8: `setNumberOfSlots` rejects every argument outside 1..512 without
modifying any state (in particular 0 and 513), while 1 and 512 are
accepted and become the active-slot count. -/
theorem setNumberOfSlots_spec (st : LXArtNet) (n : Int)
    (hout : n < 1 ∨ 512 < n) :
    st.setNumberOfSlots n = st ∧
    st.setNumberOfSlots 0 = st ∧
    st.setNumberOfSlots 513 = st ∧
    (st.setNumberOfSlots 1).numberOfSlots = 1 ∧
    (st.setNumberOfSlots 512).numberOfSlots = 512 := by
  unfold LXArtNet.setNumberOfSlots LXArtNet.numberOfSlots
  refine ⟨?_, ?_, ?_, ?_, ?_⟩
  · rw [if_neg]
    omega
  · rw [if_neg]
    omega
  · rw [if_neg]
    omega
  · rw [if_pos ⟨by omega, by omega⟩]
    rfl
  · rw [if_pos ⟨by omega, by omega⟩]
    rfl

/-- Instance of `setNumberOfSlots_spec` at the out-of-range argument
513 on the sample state. -/
theorem setNumberOfSlots_spec_witness :
    ((513 : Int) < 1 ∨ (512 : Int) < 513) ∧
    sampleState.setNumberOfSlots 513 = sampleState ∧
    (sampleState.setNumberOfSlots 1).numberOfSlots = 1 ∧
    (sampleState.setNumberOfSlots 512).numberOfSlots = 512 := by
  have h := setNumberOfSlots_spec sampleState 513 (Or.inr (by decide))
  exact ⟨Or.inr (by decide), h.1, h.2.2.2.1, h.2.2.2.2⟩

/-- C9: an engine constructed with a subnet mask stores the computed
broadcast address, and the poll-reply destination is then that address
for every poll sender; an engine constructed without a subnet mask has
no broadcast address, and the reply destination is the poll sender's
address. -/
theorem pollReplyDestination_spec (st : LXArtNet)
    (address mask b sender : Nat) :
    (LXArtNet.mkBroadcast address mask)._broadcast_address
      = some (broadcastFor address mask) ∧
    (LXArtNet.mkUnicast address)._broadcast_address = none ∧
    (st._broadcast_address = some b → pollReplyDestination st sender = b) ∧
    (st._broadcast_address = none → pollReplyDestination st sender = sender) := by
  refine ⟨rfl, rfl, ?_, ?_⟩ <;>
    · intro h
      unfold pollReplyDestination
      rw [h]

/-- Instance of `pollReplyDestination_spec`: a broadcast-constructed
engine replies to 10.0.0.255 whatever the poll sender was, a
unicast-constructed engine replies to the sender. -/
theorem pollReplyDestination_spec_witness :
    ((LXArtNet.mkBroadcast 0x0A000001 0xFFFFFF00)._broadcast_address
        = some 0x0A0000FF) ∧
    pollReplyDestination (LXArtNet.mkBroadcast 0x0A000001 0xFFFFFF00) 7
      = 0x0A0000FF ∧
    pollReplyDestination (LXArtNet.mkUnicast 0x0A000001) 7 = 7 := by
  have h := pollReplyDestination_spec
    (LXArtNet.mkBroadcast 0x0A000001 0xFFFFFF00) 0x0A000001 0xFFFFFF00
    0x0A0000FF 7
  have h2 := pollReplyDestination_spec (LXArtNet.mkUnicast 0x0A000001)
    0x0A000001 0xFFFFFF00 0 7
  refine ⟨by decide, h.2.2.1 (by decide), h2.2.2.2 (by decide)⟩

/-- C3: a structurally valid ArtDMX datagram whose universe-address byte
differs from the node's configured universe leaves the whole engine
state unchanged — slot buffer, active-slot count, merge lock — yet the
DATA opcode is still the value reported to the caller, the same return
code as for an accepted datagram. -/
theorem wrong_universe_data_discarded (st : LXArtNet) (buf : List Nat)
    (sender : Nat) (hop : parse_header buf = ARTNET_ART_DMX)
    (huni : buf.getD 14 0 ≠ st._universe) :
    readArtNetPacket st buf sender = (st, ARTNET_ART_DMX) := by
  unfold readArtNetPacket
  rw [hop, if_pos rfl]
  unfold handleArtDMX
  rw [if_neg huni]

/-- Instance of `wrong_universe_data_discarded`: a datagram for universe
0x12 arriving at the sample node configured for universe 0x34. -/
theorem wrong_universe_data_discarded_witness :
    parse_header (dataDatagram 0x12 [7, 9]) = ARTNET_ART_DMX ∧
    (dataDatagram 0x12 [7, 9]).getD 14 0 ≠ sampleState._universe ∧
    readArtNetPacket sampleState (dataDatagram 0x12 [7, 9]) 77
      = (sampleState, ARTNET_ART_DMX) :=
  ⟨by decide, by decide,
   wrong_universe_data_discarded sampleState _ 77 (by decide) (by decide)⟩

/-- The engine state after `n` consecutive `sendDMX` calls. -/
def sendDMXstate (st : LXArtNet) : Nat → LXArtNet
  | 0 => st
  | n + 1 => (sendDMX (sendDMXstate st n)).1

/-- After `n` sends, the sequence counter holds the initial byte value
plus `n`, modulo 256. -/
theorem sendDMXstate_sequence (st : LXArtNet) (hs : st._sequence < 256)
    (n : Nat) : (sendDMXstate st n)._sequence = (st._sequence + n) % 256 := by
  induction n with
  | zero =>
      show st._sequence = (st._sequence + 0) % 256
      omega
  | succ n ih =>
      have hstep : (sendDMXstate st (n + 1))._sequence
          = ((sendDMXstate st n)._sequence + 1) % 256 := rfl
      rw [hstep, ih]
      omega

/-- C6: across any run of consecutive `sendDMX` calls from a state whose
sequence counter is a byte, the sequence byte (offset 12) written into
the k-th encoded DATA datagram is the initial counter value plus k − 1,
modulo 256 — one increment, wrapping at 256, per outgoing datagram. -/
theorem sequence_counter_increments (st : LXArtNet) (k : Nat)
    (hk : 1 ≤ k) (hs : st._sequence < 256) :
    (sendDMX (sendDMXstate st (k - 1))).2.getD 12 0
      = (st._sequence + (k - 1)) % 256 := by
  have hb : (sendDMX (sendDMXstate st (k - 1))).2.getD 12 0
      = (sendDMXstate st (k - 1))._sequence := rfl
  rw [hb, sendDMXstate_sequence st hs (k - 1)]

/-- Instance of `sequence_counter_increments` at k = 300, past the
wraparound: the 300th datagram carries (5 + 299) % 256 = 48. -/
theorem sequence_counter_increments_witness :
    1 ≤ 300 ∧ sampleState._sequence < 256 ∧
    (sendDMX (sendDMXstate sampleState (300 - 1))).2.getD 12 0
      = (sampleState._sequence + (300 - 1)) % 256 :=
  ⟨by decide, by decide,
   sequence_counter_increments sampleState 300 (by decide) (by decide)⟩

/-- Accepting decode: with the merge lock open, a valid matching-universe
ArtDMX datagram overwrites the leading slots with its payload, sets the
active-slot count to the declared length, and locks the merge lock to
the sender. -/
theorem readArtNetPacket_accept_unlocked (st : LXArtNet) (buf : List Nat)
    (sender : Nat) (h0 : st._dmx_sender = none)
    (hop : parse_header buf = ARTNET_ART_DMX)
    (huni : buf.getD 14 0 = st._universe) :
    readArtNetPacket st buf sender
      = ({ st with dmx := writeSlots st.dmx (payloadOf buf)
                   _dmx_slots := slotsOf buf
                   _dmx_sender := some sender }, ARTNET_ART_DMX) := by
  unfold readArtNetPacket
  rw [hop, if_pos rfl]
  unfold handleArtDMX
  rw [if_pos huni, h0]

/-- Locked-out decode: with the merge lock held by another source, an
ArtDMX datagram leaves the state unchanged but the DATA opcode is still
reported. -/
theorem readArtNetPacket_locked_discard (st : LXArtNet) (buf : List Nat)
    (sender a : Nat) (hl : st._dmx_sender = some a) (hne : sender ≠ a)
    (hop : parse_header buf = ARTNET_ART_DMX) :
    readArtNetPacket st buf sender = (st, ARTNET_ART_DMX) := by
  unfold readArtNetPacket
  rw [hop, if_pos rfl]
  unfold handleArtDMX
  by_cases huni : buf.getD 14 0 = st._universe
  · rw [if_pos huni, hl]
    dsimp only
    rw [if_neg hne]
  · rw [if_neg huni]

/-- The overwritten slot buffer starts with exactly the payload. -/
theorem writeSlots_take (old p : List Nat) :
    (writeSlots old p).take p.length = p := by
  simp [writeSlots]

/-- `writeSlots_take` restated for any count equal to the payload
length. -/
theorem writeSlots_take_n (old p : List Nat) (n : Nat) (h : p.length = n) :
    (writeSlots old p).take n = p := by
  rw [← h]
  exact writeSlots_take old p

/-- When the datagram really carries its declared number of payload
bytes, the extracted payload has the declared length. -/
theorem payloadOf_length (buf : List Nat) (h : 18 + slotsOf buf ≤ buf.length) :
    (payloadOf buf).length = slotsOf buf := by
  unfold payloadOf
  rw [List.length_take, List.length_drop]
  omega

/-- C1: starting unlocked, a valid matching-universe DATA datagram from
source X locks the merge lock to X and puts X's payload at the head of
the slot buffer with the active-slot count equal to the payload length;
a following valid matching-universe DATA datagram from a different
source Y changes nothing — slot buffer, count and lock keep X's values —
while the DATA opcode is still reported to the caller. -/
theorem merge_lockout_two_sources (st : LXArtNet) (bufX bufY : List Nat)
    (X Y : Nat) (h0 : st._dmx_sender = none)
    (hXop : parse_header bufX = ARTNET_ART_DMX)
    (hXuni : bufX.getD 14 0 = st._universe)
    (hXlen : 18 + slotsOf bufX ≤ bufX.length)
    (hYop : parse_header bufY = ARTNET_ART_DMX)
    (hYuni : bufY.getD 14 0 = st._universe)
    (hXY : Y ≠ X) :
    (readArtNetPacket st bufX X).1._dmx_sender = some X ∧
    (readArtNetPacket st bufX X).1._dmx_slots = (payloadOf bufX).length ∧
    (readArtNetPacket st bufX X).1.dmx.take (payloadOf bufX).length
      = payloadOf bufX ∧
    readArtNetPacket (readArtNetPacket st bufX X).1 bufY Y
      = ((readArtNetPacket st bufX X).1, ARTNET_ART_DMX) := by
  have e1 := readArtNetPacket_accept_unlocked st bufX X h0 hXop hXuni
  rw [e1]
  dsimp only
  refine ⟨rfl, ?_, ?_, ?_⟩
  · rw [payloadOf_length bufX hXlen]
  · exact writeSlots_take_n st.dmx (payloadOf bufX) _ rfl
  · exact readArtNetPacket_locked_discard _ bufY Y X rfl hXY hYop

/-- Instance of `merge_lockout_two_sources`: sender 1001 delivers
[7, 9] to the sample node, then sender 1002's datagram is discarded
with the DATA opcode reported. -/
theorem merge_lockout_two_sources_witness :
    sampleState._dmx_sender = none ∧
    parse_header (dataDatagram 0x34 [7, 9]) = ARTNET_ART_DMX ∧
    (1002 : Nat) ≠ 1001 ∧
    (readArtNetPacket sampleState (dataDatagram 0x34 [7, 9]) 1001).1._dmx_sender
      = some 1001 ∧
    readArtNetPacket
        (readArtNetPacket sampleState (dataDatagram 0x34 [7, 9]) 1001).1
        (dataDatagram 0x34 [1, 2, 3, 4]) 1002
      = ((readArtNetPacket sampleState (dataDatagram 0x34 [7, 9]) 1001).1,
          ARTNET_ART_DMX) := by
  have h := merge_lockout_two_sources sampleState (dataDatagram 0x34 [7, 9])
    (dataDatagram 0x34 [1, 2, 3, 4]) 1001 1002 rfl (by decide) (by decide)
    (by decide) (by decide) (by decide) (by decide)
  exact ⟨rfl, by decide, by decide, h.1, h.2.2.2⟩

/-- C2: with the merge lock held by some source A, decoding an
ArtAddress datagram whose command byte is 0x01 resets the merge lock to
unlocked, and a subsequent valid matching-universe DATA datagram from
any new source Y is accepted: the slot buffer receives Y's payload, the
active-slot count its length, and the merge lock locks to Y. -/
theorem cancel_merge_unlocks (st : LXArtNet) (bufA bufY : List Nat)
    (srcA A Y : Nat) (hlock : st._dmx_sender = some A)
    (hAop : parse_header bufA = ARTNET_ART_ADDRESS)
    (hAcmd : bufA.getD 106 0 = 0x01)
    (hYop : parse_header bufY = ARTNET_ART_DMX)
    (hYuni : bufY.getD 14 0 = (readArtNetPacket st bufA srcA).1._universe)
    (hYlen : 18 + slotsOf bufY ≤ bufY.length) :
    (readArtNetPacket st bufA srcA).1._dmx_sender = none ∧
    (readArtNetPacket (readArtNetPacket st bufA srcA).1 bufY Y).1._dmx_sender
      = some Y ∧
    (readArtNetPacket (readArtNetPacket st bufA srcA).1 bufY Y).1._dmx_slots
      = (payloadOf bufY).length ∧
    (readArtNetPacket (readArtNetPacket st bufA srcA).1 bufY Y).1.dmx.take
      (payloadOf bufY).length = payloadOf bufY := by
  have e1 : readArtNetPacket st bufA srcA = parse_art_address st bufA := by
    unfold readArtNetPacket
    rw [hAop, if_neg (by decide), if_pos rfl]
  have hunlocked : (readArtNetPacket st bufA srcA).1._dmx_sender = none := by
    rw [e1]
    unfold parse_art_address
    rw [if_pos hAcmd]
  have e2 := readArtNetPacket_accept_unlocked (readArtNetPacket st bufA srcA).1
    bufY Y hunlocked hYop hYuni
  rw [e2]
  dsimp only
  refine ⟨hunlocked, rfl, ?_, ?_⟩
  · rw [payloadOf_length bufY hYlen]
  · exact writeSlots_take_n _ (payloadOf bufY) _ rfl

/-- A concrete ArtAddress datagram: no-change universe/subnet fields and
command byte 0x01 (cancel merge) at offset 106. -/
def addressDatagram : List Nat :=
  artnetMagic ++ [0x00, 0x60] ++ List.replicate 96 0 ++ [1]

/-- The sample state with the merge lock held by source 500. -/
def lockedState : LXArtNet := { sampleState with _dmx_sender := some 500 }

/-- Instance of `cancel_merge_unlocks`: the locked sample node receives
a cancel-merge ArtAddress datagram and then accepts data from the new
source 1002. -/
theorem cancel_merge_unlocks_witness :
    lockedState._dmx_sender = some 500 ∧
    parse_header addressDatagram = ARTNET_ART_ADDRESS ∧
    addressDatagram.getD 106 0 = 0x01 ∧
    (readArtNetPacket lockedState addressDatagram 500).1._dmx_sender = none ∧
    (readArtNetPacket (readArtNetPacket lockedState addressDatagram 500).1
        (dataDatagram 0x34 [7, 9]) 1002).1._dmx_sender = some 1002 := by
  have h := cancel_merge_unlocks lockedState addressDatagram
    (dataDatagram 0x34 [7, 9]) 500 500 1002 rfl (by decide) (by decide)
    (by decide) (by decide) (by decide)
  exact ⟨rfl, by decide, by decide, h.1, h.2.1⟩

/-- An encoded ArtDMX datagram carries a valid header whose opcode is
0x5000. -/
theorem parse_header_sendDMX (st : LXArtNet) :
    parse_header (sendDMX st).2 = ARTNET_ART_DMX := by
  have hcond : 10 ≤ (sendDMX st).2.length ∧
      (sendDMX st).2.take 8 = artnetMagic := by
    constructor
    · have hlen18 : (sendDMX st).2.length
          = 18 + (st.dmx.take st._dmx_slots).length := by
        simp [sendDMX, artnetMagic]
        omega
      omega
    · rfl
  unfold parse_header
  rw [if_pos hcond]
  rfl

/-- The declared length of an encoded ArtDMX datagram equals the encoding
state's active-slot count, when that count respects the 512 capacity. -/
theorem slotsOf_sendDMX (st : LXArtNet) (h : st._dmx_slots ≤ 512) :
    slotsOf (sendDMX st).2 = st._dmx_slots := by
  unfold slotsOf
  have h16 : (sendDMX st).2.getD 16 0 = st._dmx_slots / 256 := rfl
  have h17 : (sendDMX st).2.getD 17 0 = st._dmx_slots % 256 := rfl
  rw [h16, h17]
  omega

/-- The payload of an encoded ArtDMX datagram is the encoding state's
active slots. -/
theorem payloadOf_sendDMX (st : LXArtNet) (h : st._dmx_slots ≤ 512) :
    payloadOf (sendDMX st).2 = st.dmx.take st._dmx_slots := by
  unfold payloadOf
  rw [slotsOf_sendDMX st h]
  have hdrop : (sendDMX st).2.drop 18 = st.dmx.take st._dmx_slots := rfl
  rw [hdrop, List.take_take, min_self]

/-- C5: encoding the slot buffer's N active slots (1 ≤ N ≤ 512) with
`sendDMX` and decoding that exact byte sequence into an engine with the
merge lock open and the same configured universe address reproduces the
same N slot values and sets the active-slot count to N. -/
theorem sendDMX_readArtNetPacket_roundTrip (st rx : LXArtNet) (sender : Nat)
    (hN1 : 1 ≤ st._dmx_slots) (hN2 : st._dmx_slots ≤ 512)
    (hlen : st._dmx_slots ≤ st.dmx.length)
    (huni : rx._universe = st._universe)
    (hun : rx._dmx_sender = none) :
    (readArtNetPacket rx (sendDMX st).2 sender).1._dmx_slots
      = st._dmx_slots ∧
    (readArtNetPacket rx (sendDMX st).2 sender).1.dmx.take st._dmx_slots
      = st.dmx.take st._dmx_slots := by
  have huni14 : (sendDMX st).2.getD 14 0 = rx._universe := by
    rw [huni]
    rfl
  have e := readArtNetPacket_accept_unlocked rx (sendDMX st).2 sender hun
    (parse_header_sendDMX st) huni14
  rw [e]
  dsimp only
  constructor
  · exact slotsOf_sendDMX st hN2
  · rw [payloadOf_sendDMX st hN2]
    refine writeSlots_take_n rx.dmx _ _ ?_
    rw [List.length_take]
    omega

/-- Instance of `sendDMX_readArtNetPacket_roundTrip`: the sample state's
three slots [10, 20, 30] survive an encode/decode round trip into a
fresh same-universe engine. -/
theorem sendDMX_readArtNetPacket_roundTrip_witness :
    1 ≤ sampleState._dmx_slots ∧ sampleState._dmx_slots ≤ 512 ∧
    sampleState._dmx_slots ≤ sampleState.dmx.length ∧
    (readArtNetPacket sampleState (sendDMX sampleState).2 9).1._dmx_slots
      = sampleState._dmx_slots ∧
    (readArtNetPacket sampleState
        (sendDMX sampleState).2 9).1.dmx.take sampleState._dmx_slots
      = sampleState.dmx.take sampleState._dmx_slots := by
  have h := sendDMX_readArtNetPacket_roundTrip sampleState sampleState 9
    (by decide) (by decide) (by decide) rfl rfl
  exact ⟨by decide, by decide, by decide, h.1, h.2⟩
